import Mathlib

/-!
Verification of the ingestion/admission core of the influxdb-router
repository (files `main.go` and `listener/main.go`), via a shallow
embedding of the relevant Go code into Lean.

Conventions of the embedding:
* HTTP headers are modelled as a total function from canonical MIME header
  keys to values, with `""` meaning "absent" (Go's `http.Header.Get`
  returns `""` for a missing header and canonicalises its argument).
* The bounded queue `chan *backends.Payload` of capacity `cap` is a
  `List Batch` together with the capacity; a non-blocking send
  (`select`/`default`) succeeds exactly when the length is below capacity.
* The capacity-1 channel `HealthCheck chan bool` is a `List Bool` of
  length at most 1.
* A handler's observable behaviour is the written status code (`none` if
  the handler returned without calling `WriteHeader`), the response body,
  the `req.Close` flag, the log lines it emitted, the statsd counter
  observations it spawned, and the resulting queue.
-/

namespace InfluxRouter

/-- Canonical MIME header key, as computed by Go's
`textproto.CanonicalMIMEHeaderKey` (used implicitly by `http.Header.Get`):
the first letter and every letter following a hyphen is upper-cased, all
other letters are lower-cased.  (Go leaves keys holding invalid token bytes
unchanged; the keys appearing in this development are all valid tokens.) -/
def canonicalKeyAux : Bool → List Char → List Char
  | _, [] => []
  | up, c :: cs =>
    (if up then c.toUpper else c.toLower) :: canonicalKeyAux (c == '-') cs

def canonicalHeaderKey (s : String) : String :=
  String.mk (canonicalKeyAux true s.toList)

/-- An inbound HTTP request, as seen by the listener handlers. -/
structure Request where
  /-- Total map from canonical header key to value; `""` = absent. -/
  headers : String → String
  remoteAddr : String
  method : String
  requestURI : String
  proto : String
  /-- Outcome of `ioutil.ReadAll(req.Body)`: the bytes, or a read error. -/
  body : Except String (List Nat)
  /-- Value stored in the request context under `messageContextKey`
  (set by the logging middleware); `none` if absent. -/
  ctxMessageID : Option String

/-- `req.Header.Get(name)`: canonicalise the name, look it up. -/
def Request.headerGet (req : Request) (name : String) : String :=
  req.headers (canonicalHeaderKey name)

/-- `req.UserAgent()` reads the `User-Agent` header. -/
def Request.userAgent (req : Request) : String :=
  req.headerGet "User-Agent"

/-- A tenant record from `config.APIKeyMap` (only the `Name` field is used
by this core, for metric tagging). -/
structure CustomerConfig where
  Name : String
deriving DecidableEq

/-- `backends.Payload`: one queued batch. -/
structure Batch where
  MessageID : String
  Body : List Nat
  APIKey : String
deriving DecidableEq

/-- The part of `HTTPListenerConfig` the admission/health handlers read,
plus the capacity the incoming queue channel was created with. -/
structure HTTPListenerConfig where
  APIKeyHeaderName : String
  /-- `config.APIKeyMap`: tenant key registry, `none` = key absent. -/
  APIConfig : String → Option CustomerConfig
  /-- Capacity of the `IncomingQueue` channel (`incoming-queue-cap`). -/
  IncomingQueueCap : Nat

/-- Modelled from the spec: `config.Mask` lives in the `config` package,
which is outside the two source files of this core.  The spec states that
masking a key preserves a leading prefix of the configured mask length and
redacts (never reveals) the remaining suffix; we redact with `x`. -/
def Mask (s : String) (n : Nat) : String :=
  String.mk (s.toList.take n) ++ String.mk (List.replicate (s.length - n) 'x')

/-- `strings.Replace(name, "-", "_", -1)`. -/
def replaceDashes (s : String) : String :=
  String.mk (s.toList.map (fun c => if c == '-' then '_' else c))

/-- Log line of the invalid-api-key rejection in `ingest`
(`log.Infof("[client %s, api-key: %s] Not a valid api key\n", client, apiKey)`).
Note the source interpolates the raw `apiKey`, not `config.Mask apiKey 4`. -/
def invalidKeyLogLine (client apiKey : String) : String :=
  "[client " ++ client ++ ", api-key: " ++ apiKey ++ "] Not a valid api key\n"

/-- Log line of the missing-gzip rejection in `ingest`. -/
def gzipLogLine : String :=
  "Gzip encoding header is not set. Closing connection"

/-- Log line of the body-read failure in `ingest`. -/
def readErrorLogLine (err : String) : String :=
  "Error reading request body: " ++ err

/-- Log line of the queue-full discard in `ingest`; here the source does
mask the key. -/
def queueFullLogLine (client apiKey : String) : String :=
  "[client-ip: " ++ client ++ ", api-key: " ++ Mask apiKey 4 ++
    "] IncomingQueue Queue full. Discarding batch."

/-- Statsd counter name `influx_router.<name>.hits`. -/
def hitsMetricName (tenantName : String) : String :=
  "influx_router." ++ replaceDashes tenantName ++ ".hits"

/-- Statsd counter name `influx_router.<name>.batch-size-bytes`. -/
def batchSizeMetricName (tenantName : String) : String :=
  "influx_router." ++ replaceDashes tenantName ++ ".batch-size-bytes"

/-- Observable outcome of one call to the `ingest` handler. -/
structure IngestResult where
  /-- Argument of the (unique) `w.WriteHeader` call; `none` if the handler
  returned without writing a status (the body-read-error path). -/
  status : Option Nat
  /-- Final value of `req.Close`. -/
  closeConn : Bool
  /-- The incoming queue after the call. -/
  queue : List Batch
  /-- Log lines emitted, in order. -/
  logs : List String
  /-- Fire-and-forget statsd counter observations spawned, in program
  order: (metric name, value). -/
  metrics : List (String × Nat)
deriving DecidableEq

/-- Shallow embedding of `ingest` (listener/main.go).  `queue` is the
current content of the `IncomingQueue` channel. -/
def ingest (req : Request) (httpConfig : HTTPListenerConfig)
    (queue : List Batch) : IngestResult :=
  let apiKey := req.headerGet httpConfig.APIKeyHeaderName
  let xff := req.headerGet "x-forwarded-for"
  let client := if xff != "" then xff else req.remoteAddr
  match httpConfig.APIConfig apiKey with
  | none =>
    { status := some 401, closeConn := true, queue := queue,
      logs := [invalidKeyLogLine client apiKey], metrics := [] }
  | some customer =>
    if req.headerGet "Content-Encoding" != "gzip" then
      { status := some 400, closeConn := true, queue := queue,
        logs := [gzipLogLine], metrics := [] }
    else
      let messageID := match req.ctxMessageID with
        | some token => token
        | none => ""
      -- `go httpConfig.Statsd.SendStatsdCounterMetric(...hits..., 1)` is
      -- spawned here, before the body is read.
      let hits := (hitsMetricName customer.Name, 1)
      match req.body with
      | .error e =>
        { status := none, closeConn := false, queue := queue,
          logs := [readErrorLogLine e], metrics := [hits] }
      | .ok buf =>
        let size := (batchSizeMetricName customer.Name, buf.length)
        let p : Batch := { MessageID := messageID, Body := buf, APIKey := apiKey }
        if queue.length < httpConfig.IncomingQueueCap then
          { status := some 204, closeConn := false, queue := queue ++ [p],
            logs := [], metrics := [hits, size] }
        else
          { status := some 200, closeConn := false, queue := queue,
            logs := [queueFullLogLine client apiKey], metrics := [hits, size] }

/-- Does `pre` start `l`? (Contiguous prefix of a character list.) -/
def startsWithChars : List Char → List Char → Bool
  | [], _ => true
  | _ :: _, [] => false
  | a :: as, b :: bs => a == b && startsWithChars as bs

/-- Does `sub` occur contiguously inside `l`? -/
def occursIn (sub : List Char) : List Char → Bool
  | [] => sub.isEmpty
  | c :: cs => startsWithChars sub (c :: cs) || occursIn sub cs

/-- `s` occurs as a contiguous substring of `line`. -/
def revealedIn (s line : String) : Bool :=
  occursIn s.toList line.toList

/-- Host part of `net.SplitHostPort(addr)`, with the middleware's fallback:
on a parse error the raw `addr` is used.  `SplitHostPort` takes the text
before the last colon as the host; an address with no colon, a bracketed
host not ending right before that colon, or an unbracketed host containing
a further colon is an error. -/
def splitHostPortHost (addr : String) : String :=
  let cs := addr.toList
  match (cs.reverse.indexOf ':') with
  | i =>
    if i ≥ cs.length then addr  -- no colon: error, fall back to addr
    else
      let hostLen := cs.length - 1 - i
      let host := cs.take hostLen
      if host.head? == some '[' then
        if host.getLast? == some ']' then
          String.mk (host.drop 1 |>.dropLast)
        else addr
      else if host.contains ':' then addr
      else String.mk host

/-- Log line of the middleware
(`log.Printf("Received message-id: %s, remote-host: %s, uri: %s, ...")`).
The api-key field is read from the fixed header name `Service-API-Key`
and masked with `config.Mask(apiKey, 4)`; for a POST the uri field is
empty, otherwise it is the request URI. -/
def middlewareLogLine (mid : String) (req : Request) : String :=
  let host := splitHostPortHost req.remoteAddr
  let apiKey := req.headerGet "Service-API-Key"
  let request := if req.method == "POST" then "" else req.requestURI
  "Received message-id: " ++ mid ++ ", remote-host: " ++ host ++
    ", uri: " ++ request ++ ", http-method: " ++ req.method ++
    ", api-key: " ++ Mask apiKey 4 ++ ", http-proto: " ++ req.proto ++
    ", user-agent: " ++ req.userAgent

/-- Shallow embedding of the `logHTTPRequest` middleware: it mints one
correlation ID (`xid.New()`, modelled as the parameter `mid` since the
generator is an external collaborator), logs the structured access line,
injects the ID into the request context and delegates.  It returns the
log line together with the request the inner handler receives. -/
def logHTTPRequest (mid : String) (req : Request) : String × Request :=
  (middlewareLogLine mid req, { req with ctxMessageID := some mid })

/-- The `/write` route as installed by `httpHandlers`: the logging
middleware wrapping `ingest`. -/
def serveWrite (mid : String) (req : Request) (httpConfig : HTTPListenerConfig)
    (queue : List Batch) : String × IngestResult :=
  let r := logHTTPRequest mid req
  (r.1, ingest r.2 httpConfig queue)

/-! ### Route table (`httpHandlers`) -/

/-- The two handlers installed on the mux, both wrapped by the logging
middleware. -/
inductive HandlerKind where
  | loggedIngest
  | loggedHealth
deriving DecidableEq

/-- The route table registered by `httpHandlers`:
`/write ↦ logHTTPRequest(ingest)` and `/health ↦ logHTTPRequest(health)`. -/
def httpHandlers : List (String × HandlerKind) :=
  [("/write", HandlerKind.loggedIngest), ("/health", HandlerKind.loggedHealth)]

/-- `http.ServeMux` dispatch for patterns without a trailing slash: exact
path match; the HTTP method is not consulted. -/
def muxDispatch (path : String) : Option HandlerKind :=
  (httpHandlers.find? (fun e => e.1 == path)).map (fun e => e.2)

/-- Dispatch of a request: `ServeMux` routes on the URL path only, the
method is ignored. -/
def dispatchRequest (method path : String) : Option HandlerKind :=
  muxDispatch path

/-! ### Health latch (`health` handler) and shutdown orchestrator
(`handleSignals`) -/

/-- Observable outcome of one `/health` probe: status code and body. -/
structure HealthResponse where
  status : Nat
  body : String
deriving DecidableEq

/-- Shallow embedding of the `health` handler over the capacity-1
`HealthCheck` channel (a `List Bool` of length ≤ 1): a `select` with a
receive case and a `default`.  When a value is pending, it is received and
`true` is immediately sent back (the channel is empty after the receive,
so the send completes), and the probe answers 503; otherwise 200. -/
def healthProbe (ch : List Bool) : HealthResponse × List Bool :=
  match ch with
  | [] => ({ status := 200, body := "Ok" }, [])
  | _ :: rest => ({ status := 503, body := "Service Unavailable" }, rest ++ [true])

/-- The `h <- true` send performed by `handleSignals` after a signal: a
send on the capacity-1 channel completes when there is room; on a full
channel it blocks (and, the orchestrator touching the channel only this
once, a forever-blocked send leaves it unchanged). -/
def signalFlip (ch : List Bool) : List Bool :=
  if ch.length < 1 then ch ++ [true] else ch

/-- Events touching the health channel during the process lifetime. -/
inductive LifecycleEvent where
  | probe
  | signal
deriving DecidableEq

/-- Run a sequence of lifecycle events against the health channel,
collecting the responses of the probes in order. -/
def runHealth : List LifecycleEvent → List Bool → List HealthResponse
  | [], _ => []
  | LifecycleEvent.probe :: es, ch =>
    (healthProbe ch).1 :: runHealth es (healthProbe ch).2
  | LifecycleEvent.signal :: es, ch => runHealth es (signalFlip ch)

/-- The OS signals relevant to `handleSignals`. -/
inductive OSSignal where
  | SIGINT
  | SIGTERM
  | SIGHUP
  | SIGQUIT
  | SIGUSR1
deriving DecidableEq

/-- The set registered by `signal.Notify(sigChan, syscall.SIGINT,
syscall.SIGTERM)`: only these signals reach the orchestrator. -/
def notifiedSignals : List OSSignal :=
  [OSSignal.SIGINT, OSSignal.SIGTERM]

/-- Whether a delivered signal triggers the shutdown sequence. -/
def signalTriggersShutdown (s : OSSignal) : Bool :=
  notifiedSignals.contains s

/-- The individual steps `handleSignals` performs after receiving a
notified signal, in program order. -/
inductive ShutdownStep where
  | flipHealth
  | logWaiting (secs : Nat)
  | sleep (secs : Nat)
  | logShutdown
  | exitProcess (code : Nat)
deriving DecidableEq

/-- Shallow embedding of the tail of `handleSignals` (after `<-sigChan`):
send on the health channel, log, arm and await the grace timer, log,
`os.Exit(0)`. -/
def handleSignalsSteps (waitBeforeShutdown : Nat) : List ShutdownStep :=
  [ShutdownStep.flipHealth,
   ShutdownStep.logWaiting waitBeforeShutdown,
   ShutdownStep.sleep waitBeforeShutdown,
   ShutdownStep.logShutdown,
   ShutdownStep.exitProcess 0]

/-- `handleSignals` as a transition on the health channel paired with its
step trace: the flip is the only channel effect. -/
def handleSignalsRun (waitBeforeShutdown : Nat) (ch : List Bool) :
    List ShutdownStep × List Bool :=
  (handleSignalsSteps waitBeforeShutdown, signalFlip ch)

/-! ### Concrete fixtures used by witnesses and counterexamples -/

/-- Build a header table from an association list of canonical keys. -/
def mkHeaders (l : List (String × String)) : String → String :=
  fun n => (((l.find? (fun e => e.1 == n)).map (fun e => e.2)).getD "")

/-- A registry with one tenant, `good-key-123 ↦ tenant-a`, queue capacity 2,
default key header name. -/
def testCfg : HTTPListenerConfig where
  APIKeyHeaderName := "Service-API-Key"
  APIConfig := fun k =>
    if k == "good-key-123" then some { Name := "tenant-a" } else none
  IncomingQueueCap := 2

/-- A well-formed write request from the registered tenant.  (The header
table is keyed by canonical MIME keys, as Go's header parsing produces
them: `CanonicalMIMEHeaderKey "Service-API-Key" = "Service-Api-Key"`.) -/
def validReq : Request where
  headers := mkHeaders
    [("Service-Api-Key", "good-key-123"), ("Content-Encoding", "gzip")]
  remoteAddr := "198.51.100.7:51423"
  method := "POST"
  requestURI := "/write"
  proto := "HTTP/1.1"
  body := Except.ok [10, 20, 30]
  ctxMessageID := some "cid-1"

/-- A request presenting a key absent from the registry. -/
def unknownKeyReq : Request :=
  { validReq with
    headers := mkHeaders
      [("Service-Api-Key", "secret-key-1"), ("Content-Encoding", "gzip")] }

/-- A valid request whose body read fails. -/
def errorBodyReq : Request :=
  { validReq with body := Except.error "unexpected EOF" }

/-- A valid request with no `Content-Encoding` header. -/
def identityEncReq : Request :=
  { validReq with
    headers := mkHeaders
      [("Service-Api-Key", "good-key-123"), ("Content-Encoding", "identity")] }

/-- Two batches filling `testCfg`'s queue to capacity. -/
def fullQueue : List Batch :=
  [{ MessageID := "m0", Body := [1], APIKey := "good-key-123" },
   { MessageID := "m1", Body := [2], APIKey := "good-key-123" }]

/-! ### String-occurrence helper lemmas -/

theorem startsWithChars_append (as bs : List Char) :
    startsWithChars as (as ++ bs) = true := by
  induction as with
  | nil => rfl
  | cons a as ih => simp [startsWithChars, ih]

theorem occursIn_append_of_startsWith (sub pre rest : List Char)
    (h : startsWithChars sub rest = true) :
    occursIn sub (pre ++ rest) = true := by
  induction pre with
  | nil =>
    cases rest with
    | nil =>
      cases sub with
      | nil => rfl
      | cons c cs => simp [startsWithChars] at h
    | cons c cs => simp [occursIn, h]
  | cons p ps ih => simp [occursIn, ih]

/-- If a string's character data splits as `pre ++ s.data ++ post`, then
`s` occurs in it. -/
theorem revealedIn_of_data (s line : String) (pre post : List Char)
    (h : line.data = pre ++ (s.data ++ post)) :
    revealedIn s line = true := by
  unfold revealedIn
  show occursIn s.data line.data = true
  rw [h]
  exact occursIn_append_of_startsWith _ _ _ (startsWithChars_append _ _)

/-- A middle factor of a concatenation occurs in it. -/
theorem revealedIn_concat (a b c : String) : revealedIn b (a ++ b ++ c) = true := by
  apply revealedIn_of_data b (a ++ b ++ c) a.data c.data
  simp [String.data_append]

/-! ### Claim theorems -/

/-- **C4.** For every request whose tenant key is absent from the registry,
`ingest` responds `401 Unauthorized`, marks the connection to close, leaves
the queue unchanged, emits no metric observation, and logs exactly the
rejection line (no further processing). -/
theorem ingest_unknown_key_rejects (req : Request) (cfg : HTTPListenerConfig)
    (q : List Batch)
    (h : cfg.APIConfig (req.headerGet cfg.APIKeyHeaderName) = none) :
    (ingest req cfg q).status = some 401 ∧
    (ingest req cfg q).closeConn = true ∧
    (ingest req cfg q).queue = q ∧
    (ingest req cfg q).metrics = [] ∧
    (ingest req cfg q).logs =
      [invalidKeyLogLine
        (if req.headerGet "x-forwarded-for" != "" then
          req.headerGet "x-forwarded-for" else req.remoteAddr)
        (req.headerGet cfg.APIKeyHeaderName)] := by
  simp [ingest, h]

/-- Witness for C4: a concrete unknown-key request is rejected with 401 and
an unchanged queue. -/
theorem ingest_unknown_key_rejects_witness :
    (ingest unknownKeyReq testCfg []).status = some 401 ∧
    (ingest unknownKeyReq testCfg []).closeConn = true ∧
    (ingest unknownKeyReq testCfg []).queue = [] ∧
    (ingest unknownKeyReq testCfg []).metrics = [] ∧
    (ingest unknownKeyReq testCfg []).logs =
      [invalidKeyLogLine
        (if unknownKeyReq.headerGet "x-forwarded-for" != "" then
          unknownKeyReq.headerGet "x-forwarded-for" else unknownKeyReq.remoteAddr)
        (unknownKeyReq.headerGet testCfg.APIKeyHeaderName)] :=
  ingest_unknown_key_rejects unknownKeyReq testCfg [] (by decide)

/-- **C5.** For every request with a registered tenant key whose
`Content-Encoding` header is absent (empty) or differs from `"gzip"`,
`ingest` responds `400 Bad Request`, marks the connection to close, leaves
the queue unchanged, and emits no metric observation. -/
theorem ingest_missing_gzip_rejects (req : Request) (cfg : HTTPListenerConfig)
    (q : List Batch) (c : CustomerConfig)
    (hkey : cfg.APIConfig (req.headerGet cfg.APIKeyHeaderName) = some c)
    (henc : req.headerGet "Content-Encoding" ≠ "gzip") :
    (ingest req cfg q).status = some 400 ∧
    (ingest req cfg q).closeConn = true ∧
    (ingest req cfg q).queue = q ∧
    (ingest req cfg q).metrics = [] ∧
    (ingest req cfg q).logs = [gzipLogLine] := by
  simp [ingest, hkey, henc]

/-- Witness for C5: a concrete request with `Content-Encoding: identity`
is rejected with 400 and an unchanged queue. -/
theorem ingest_missing_gzip_rejects_witness :
    (ingest identityEncReq testCfg []).status = some 400 ∧
    (ingest identityEncReq testCfg []).closeConn = true ∧
    (ingest identityEncReq testCfg []).queue = [] ∧
    (ingest identityEncReq testCfg []).metrics = [] ∧
    (ingest identityEncReq testCfg []).logs = [gzipLogLine] :=
  ingest_missing_gzip_rejects identityEncReq testCfg [] { Name := "tenant-a" }
    (by decide) (by decide)

/-- **C2.** A valid request (registered key, gzip encoding, body read
succeeds) arriving while the queue is at capacity gets `200 OK`; the
non-blocking enqueue fails and the queue is unchanged — no entry is added
and none is evicted. -/
theorem ingest_queue_full_discards (req : Request) (cfg : HTTPListenerConfig)
    (q : List Batch) (c : CustomerConfig) (buf : List Nat)
    (hkey : cfg.APIConfig (req.headerGet cfg.APIKeyHeaderName) = some c)
    (henc : req.headerGet "Content-Encoding" = "gzip")
    (hbody : req.body = Except.ok buf)
    (hfull : q.length = cfg.IncomingQueueCap) :
    (ingest req cfg q).status = some 200 ∧
    (ingest req cfg q).queue = q ∧
    (ingest req cfg q).closeConn = false ∧
    (ingest req cfg q).logs =
      [queueFullLogLine
        (if req.headerGet "x-forwarded-for" != "" then
          req.headerGet "x-forwarded-for" else req.remoteAddr)
        (req.headerGet cfg.APIKeyHeaderName)] := by
  simp [ingest, hkey, henc, hbody, hfull]

/-- Witness for C2: with the queue pre-filled to capacity 2, a further
valid request yields 200 and the queue keeps exactly its two entries. -/
theorem ingest_queue_full_discards_witness :
    (ingest validReq testCfg fullQueue).status = some 200 ∧
    (ingest validReq testCfg fullQueue).queue = fullQueue ∧
    (ingest validReq testCfg fullQueue).closeConn = false ∧
    (ingest validReq testCfg fullQueue).logs =
      [queueFullLogLine
        (if validReq.headerGet "x-forwarded-for" != "" then
          validReq.headerGet "x-forwarded-for" else validReq.remoteAddr)
        (validReq.headerGet testCfg.APIKeyHeaderName)] :=
  ingest_queue_full_discards validReq testCfg fullQueue { Name := "tenant-a" }
    [10, 20, 30] (by decide) (by decide) (by rfl) (by decide)

/-- Replacing the context value leaves the header table untouched. -/
theorem headerGet_setCtx (req : Request) (x : Option String) (n : String) :
    Request.headerGet { req with ctxMessageID := x } n = req.headerGet n := rfl

/-- **C3.** For every valid request (registered key, gzip encoding, body
read succeeds) arriving while the queue has spare capacity, the response
is `204 No Content` and exactly one Batch is appended at the queue tail,
with the request body, the request's tenant key, and the correlation ID
minted by the logging middleware for that request (the empty string when
no ID is present in the request context). -/
theorem serveWrite_spare_capacity_enqueues (mid : String) (req : Request)
    (cfg : HTTPListenerConfig) (q : List Batch) (c : CustomerConfig)
    (buf : List Nat)
    (hkey : cfg.APIConfig (req.headerGet cfg.APIKeyHeaderName) = some c)
    (henc : req.headerGet "Content-Encoding" = "gzip")
    (hbody : req.body = Except.ok buf)
    (hcap : q.length < cfg.IncomingQueueCap) :
    ((serveWrite mid req cfg q).2.status = some 204 ∧
     (serveWrite mid req cfg q).2.queue =
       q ++ [{ MessageID := mid, Body := buf,
               APIKey := req.headerGet cfg.APIKeyHeaderName }]) ∧
    (req.ctxMessageID = none →
     (ingest req cfg q).status = some 204 ∧
     (ingest req cfg q).queue =
       q ++ [{ MessageID := "", Body := buf,
               APIKey := req.headerGet cfg.APIKeyHeaderName }]) := by
  constructor
  · simp only [Request.headerGet] at hkey henc
    constructor <;>
      simp [serveWrite, logHTTPRequest, ingest, Request.headerGet,
        hkey, henc, hbody, hcap]
  · intro hctx
    constructor <;> simp [ingest, hkey, henc, hbody, hcap, hctx]

/-- Witness for C3: a concrete valid request on an empty queue of
capacity 2 yields 204 and appends the one batch carrying the minted ID. -/
theorem serveWrite_spare_capacity_enqueues_witness :
    (serveWrite "mid-42" validReq testCfg []).2.status = some 204 ∧
    (serveWrite "mid-42" validReq testCfg []).2.queue =
      [] ++ [{ MessageID := "mid-42", Body := [10, 20, 30],
               APIKey := validReq.headerGet testCfg.APIKeyHeaderName }] :=
  (serveWrite_spare_capacity_enqueues "mid-42" validReq testCfg []
    { Name := "tenant-a" } [10, 20, 30]
    (by decide) (by decide) (by rfl) (by decide)).1

/-- **C8 (amended).** In `ingest`, the "hits" counter observation is
spawned before the body is read, so a body-read failure still emits it;
the "batch size bytes" counter is emitted only after a successful read.
On a read failure no status is written (the response is aborted), the
queue is unchanged, and only the read error is logged. -/
theorem ingest_metric_emission_order (req : Request)
    (cfg : HTTPListenerConfig) (q : List Batch) (c : CustomerConfig)
    (hkey : cfg.APIConfig (req.headerGet cfg.APIKeyHeaderName) = some c)
    (henc : req.headerGet "Content-Encoding" = "gzip") :
    (∀ e, req.body = Except.error e →
      (ingest req cfg q).metrics = [(hitsMetricName c.Name, 1)] ∧
      (ingest req cfg q).status = none ∧
      (ingest req cfg q).queue = q ∧
      (ingest req cfg q).logs = [readErrorLogLine e]) ∧
    (∀ buf, req.body = Except.ok buf →
      (ingest req cfg q).metrics =
        [(hitsMetricName c.Name, 1),
         (batchSizeMetricName c.Name, buf.length)]) := by
  constructor
  · intro e he
    refine ⟨?_, ?_, ?_, ?_⟩ <;> simp [ingest, hkey, henc, he]
  · intro buf hb
    by_cases hq : q.length < cfg.IncomingQueueCap <;>
      simp [ingest, hkey, henc, hb, hq]

/-- Counterexample for C8 as stated: on a concrete valid request whose
body read fails, a counter observation (the "hits" counter) has already
been emitted, although the claim says neither counter is emitted. -/
theorem ingest_hits_metric_on_read_failure_cex :
    (ingest errorBodyReq testCfg []).status = none ∧
    (ingest errorBodyReq testCfg []).metrics = [(hitsMetricName "tenant-a", 1)] ∧
    (ingest errorBodyReq testCfg []).metrics ≠ [] := by
  refine ⟨rfl, rfl, ?_⟩
  decide

/-- Witness for the amended C8: the concrete failing-body request emits
exactly the "hits" counter, writes no status, and leaves the queue
unchanged. -/
theorem ingest_metric_emission_order_witness :
    (ingest errorBodyReq testCfg []).metrics = [(hitsMetricName "tenant-a", 1)] ∧
    (ingest errorBodyReq testCfg []).status = none ∧
    (ingest errorBodyReq testCfg []).queue = [] ∧
    (ingest errorBodyReq testCfg []).logs = [readErrorLogLine "unexpected EOF"] :=
  (ingest_metric_emission_order errorBodyReq testCfg [] { Name := "tenant-a" }
    (by decide) (by decide)).1 "unexpected EOF" (by rfl)

/-- The queue-full discard line carries the masked key. -/
theorem queueFull_log_masks_key (client apiKey : String) :
    revealedIn (Mask apiKey 4) (queueFullLogLine client apiKey) = true :=
  revealedIn_concat (("[client-ip: " ++ client) ++ ", api-key: ")
    (Mask apiKey 4) "] IncomingQueue Queue full. Discarding batch."

/-- The middleware access line carries the masked `Service-API-Key`
header value. -/
theorem middleware_log_masks_key (mid : String) (req : Request) :
    revealedIn (Mask (req.headerGet "Service-API-Key") 4)
      (middlewareLogLine mid req) = true := by
  apply revealedIn_of_data _ _
    (("Received message-id: " ++ mid ++ ", remote-host: " ++
      splitHostPortHost req.remoteAddr ++ ", uri: " ++
      (if req.method == "POST" then "" else req.requestURI) ++
      ", http-method: " ++ req.method ++ ", api-key: ").data)
    ((", http-proto: " ++ req.proto ++ ", user-agent: " ++
      req.userAgent).data)
  simp [middlewareLogLine, String.data_append]

/-- Counterexample for C1 as stated: a concrete request with the unknown
key `secret-key-1` (length 12 ≥ 4) produces a rejection log line that
contains the key's raw suffix `et-key-1` beyond the mask length 4, and
does not contain the masked form of the key at all. -/
theorem rejection_log_reveals_raw_key_cex :
    (ingest unknownKeyReq testCfg []).logs =
      [invalidKeyLogLine "198.51.100.7:51423" "secret-key-1"] ∧
    "secret-key-1".data.drop 4 = "et-key-1".data ∧
    revealedIn "et-key-1"
      (invalidKeyLogLine "198.51.100.7:51423" "secret-key-1") = true ∧
    revealedIn (Mask "secret-key-1" 4)
      (invalidKeyLogLine "198.51.100.7:51423" "secret-key-1") = false := by
  refine ⟨rfl, rfl, ?_, ?_⟩ <;> decide

/-- **C1 (amended).** For every request whose tenant key is not in the
registry, the rejection log line interpolates the raw, unmasked key (the
full key occurs in the line).  The masked form — which preserves only a
prefix of the configured mask length and redacts the remaining suffix —
is what the queue-full discard line and the middleware access line carry,
not what the unknown-key rejection line carries. -/
theorem rejection_log_reveals_raw_key (req : Request)
    (cfg : HTTPListenerConfig) (q : List Batch)
    (h : cfg.APIConfig (req.headerGet cfg.APIKeyHeaderName) = none) :
    (ingest req cfg q).logs =
      [invalidKeyLogLine
        (if req.headerGet "x-forwarded-for" != "" then
          req.headerGet "x-forwarded-for" else req.remoteAddr)
        (req.headerGet cfg.APIKeyHeaderName)] ∧
    (∀ client apiKey : String,
      revealedIn apiKey (invalidKeyLogLine client apiKey) = true) ∧
    (∀ client apiKey : String,
      revealedIn (Mask apiKey 4) (queueFullLogLine client apiKey) = true) ∧
    (∀ mid : String, ∀ r : Request,
      revealedIn (Mask (r.headerGet "Service-API-Key") 4)
        (middlewareLogLine mid r) = true) ∧
    (∀ apiKey : String, (Mask apiKey 4).data =
      apiKey.data.take 4 ++ List.replicate (apiKey.length - 4) 'x') := by
  refine ⟨by simp [ingest, h], ?_, queueFull_log_masks_key,
    middleware_log_masks_key, ?_⟩
  · intro client apiKey
    exact revealedIn_concat (("[client " ++ client) ++ ", api-key: ")
      apiKey "] Not a valid api key\n"
  · intro apiKey
    rfl

/-- Witness for the amended C1: the concrete unknown-key request yields
exactly the raw-key rejection line, which contains the raw key. -/
theorem rejection_log_reveals_raw_key_witness :
    (ingest unknownKeyReq testCfg []).logs =
      [invalidKeyLogLine
        (if unknownKeyReq.headerGet "x-forwarded-for" != "" then
          unknownKeyReq.headerGet "x-forwarded-for"
        else unknownKeyReq.remoteAddr)
        (unknownKeyReq.headerGet testCfg.APIKeyHeaderName)] :=
  (rejection_log_reveals_raw_key unknownKeyReq testCfg [] (by decide)).1

/-! ### Health latch lemmas -/

/-- The response of a probe that observes `Serving`. -/
def servingResp : HealthResponse := { status := 200, body := "Ok" }

/-- The response of a probe that observes `Draining`. -/
def drainingResp : HealthResponse := { status := 503, body := "Service Unavailable" }

/-- Invariant of the capacity-1 health channel: empty, or holding the
single value `true`. -/
def healthChanInv (ch : List Bool) : Prop := ch = [] ∨ ch = [true]

theorem healthProbe_inv (ch : List Bool) (h : healthChanInv ch) :
    healthChanInv (healthProbe ch).2 := by
  rcases h with h | h <;> subst h <;> simp [healthProbe, healthChanInv]

theorem signalFlip_inv (ch : List Bool) (h : healthChanInv ch) :
    healthChanInv (signalFlip ch) := by
  rcases h with h | h <;> subst h <;> simp [signalFlip, healthChanInv]

/-- Once the channel holds `true`, every later probe answers 503. -/
theorem runHealth_draining (es : List LifecycleEvent) :
    ∀ j r, (runHealth es [true]).get? j = some r → r = drainingResp := by
  induction es with
  | nil => intro j r h; simp [runHealth] at h
  | cons e es ih =>
    cases e with
    | probe =>
      intro j r h
      cases j with
      | zero =>
        simp [runHealth, healthProbe, drainingResp] at h ⊢
        exact h.symm
      | succ j => exact ih j r (by simpa [runHealth, healthProbe] using h)
    | signal =>
      intro j r h
      exact ih j r (by simpa [runHealth, signalFlip] using h)

/-- Response shapes: every probe answers either 200/"Ok" or
503/"Service Unavailable". -/
theorem runHealth_shape (es : List LifecycleEvent) :
    ∀ ch, healthChanInv ch → ∀ r ∈ runHealth es ch,
      r = servingResp ∨ r = drainingResp := by
  induction es with
  | nil => intro ch _ r hr; simp [runHealth] at hr
  | cons e es ih =>
    intro ch hch r hr
    cases e with
    | probe =>
      rcases hch with h | h <;> subst h
      · rcases (by simpa [runHealth, healthProbe] using hr :
          r = servingResp ∨ r ∈ runHealth es []) with h | h
        · exact Or.inl h
        · exact ih [] (Or.inl rfl) r h
      · rcases (by simpa [runHealth, healthProbe] using hr :
          r = drainingResp ∨ r ∈ runHealth es [true]) with h | h
        · exact Or.inr h
        · exact ih [true] (Or.inr rfl) r h
    | signal =>
      exact ih (signalFlip ch) (signalFlip_inv ch hch) r
        (by simpa [runHealth] using hr)

/-- Monotonicity over any event sequence, from any channel state
satisfying the invariant. -/
theorem runHealth_mono_aux (es : List LifecycleEvent) :
    ∀ ch, healthChanInv ch → ∀ i j, i ≤ j →
      (runHealth es ch).get? i = some drainingResp →
      ∀ rj, (runHealth es ch).get? j = some rj → rj = drainingResp := by
  induction es with
  | nil => intro ch _ i j _ hi; simp [runHealth] at hi
  | cons e es ih =>
    intro ch hch i j hij hi rj hj
    cases e with
    | probe =>
      rcases hch with h | h <;> subst h
      · cases i with
        | zero =>
          rw [show runHealth (LifecycleEvent.probe :: es) [] =
            servingResp :: runHealth es [] from rfl] at hi
          simp [servingResp, drainingResp] at hi
        | succ i =>
          cases j with
          | zero => exact absurd hij (by omega)
          | succ j =>
            exact ih [] (Or.inl rfl) i j (Nat.le_of_succ_le_succ hij)
              (by simpa [runHealth, healthProbe] using hi) rj
              (by simpa [runHealth, healthProbe] using hj)
      · cases j with
        | zero =>
          simpa [runHealth, healthProbe, drainingResp] using hj.symm
        | succ j =>
          exact runHealth_draining es j rj
            (by simpa [runHealth, healthProbe] using hj)
    | signal =>
      exact ih (signalFlip ch) (signalFlip_inv ch hch) i j hij
        (by simpa [runHealth] using hi) rj (by simpa [runHealth] using hj)

/-- In a fresh process, `n` probes before any signal all answer 200. -/
theorem runHealth_probes_serving (n : Nat) :
    runHealth (List.replicate n LifecycleEvent.probe) [] =
      List.replicate n servingResp := by
  induction n with
  | zero => rfl
  | succ n ih => simp [List.replicate_succ, runHealth, healthProbe, ih, servingResp]

/-- **C6.** The health latch is monotonic.  Starting from the initial
(Serving) channel state: every probe answers 200/"Ok" or
503/"Service Unavailable"; once a probe at position `i` observes
Draining (503/"Service Unavailable"), every probe at a later position `j`
in the same process lifetime observes Draining as well, never Serving;
and in a lifetime with no signal every probe answers 200/"Ok". -/
theorem health_latch_monotone (es : List LifecycleEvent) :
    (∀ r ∈ runHealth es [], r = servingResp ∨ r = drainingResp) ∧
    (∀ i j, i ≤ j →
      (runHealth es []).get? i = some drainingResp →
      ∀ rj, (runHealth es []).get? j = some rj → rj = drainingResp) ∧
    (∀ n, runHealth (List.replicate n LifecycleEvent.probe) [] =
      List.replicate n servingResp) :=
  ⟨runHealth_shape es [] (Or.inl rfl),
   fun i j hij hi rj hj => runHealth_mono_aux es [] (Or.inl rfl) i j hij hi rj hj,
   runHealth_probes_serving⟩

/-- Witness for C6: in the concrete lifetime probe–signal–probe–probe the
responses are `[200 Ok, 503, 503]`; applying the theorem at positions
1 ≤ 2 confirms the third probe observes Draining. -/
theorem health_latch_monotone_witness :
    runHealth [LifecycleEvent.probe, LifecycleEvent.signal,
      LifecycleEvent.probe, LifecycleEvent.probe] [] =
      [servingResp, drainingResp, drainingResp] ∧
    drainingResp = drainingResp :=
  ⟨by decide,
   (health_latch_monotone [LifecycleEvent.probe, LifecycleEvent.signal,
      LifecycleEvent.probe, LifecycleEvent.probe]).2.1
     1 2 (by decide) (by decide) drainingResp (by decide)⟩

/-- **C7.** `handleSignals` is notified exactly for SIGINT and SIGTERM,
no other signal.  After a notification it first flips the health latch
(the send on the health channel, which fills the empty channel with
`true`), then waits the configured grace period, then exits the process
with code 0: in its step trace the flip is at position 0, the grace sleep
at position 2, and the unconditional `os.Exit(0)` at position 4 — the
flip strictly precedes the wait, which strictly precedes process exit,
and exit is the final step. -/
theorem handleSignals_shutdown_order (w : Nat) :
    (∀ s, signalTriggersShutdown s = true ↔
      (s = OSSignal.SIGINT ∨ s = OSSignal.SIGTERM)) ∧
    (handleSignalsRun w []).2 = [true] ∧
    (handleSignalsRun w []).1 = handleSignalsSteps w ∧
    (handleSignalsSteps w).get? 0 = some ShutdownStep.flipHealth ∧
    (handleSignalsSteps w).get? 2 = some (ShutdownStep.sleep w) ∧
    (handleSignalsSteps w).get? 4 = some (ShutdownStep.exitProcess 0) ∧
    (handleSignalsSteps w).length = 5 := by
  refine ⟨?_, rfl, rfl, rfl, rfl, rfl, rfl⟩
  intro s
  cases s <;> decide

/-- **C9 (amended).** The mux installs exactly two routes and dispatches
by path only, for every HTTP method: `/write` goes to the
middleware-wrapped Admission Handler and `/health` to the
middleware-wrapped health probe handler; every other path is unrouted.
In particular a non-POST `/write` request still reaches the Admission
Handler. -/
theorem route_dispatch_by_path_only (method path : String)
    (h1 : path ≠ "/write") (h2 : path ≠ "/health") :
    dispatchRequest method "/write" = some HandlerKind.loggedIngest ∧
    dispatchRequest method "/health" = some HandlerKind.loggedHealth ∧
    dispatchRequest method path = none ∧
    httpHandlers.length = 2 := by
  refine ⟨rfl, rfl, ?_, rfl⟩
  have c1 : ("/write" == path) = false := by
    rw [beq_eq_false_iff_ne]; exact fun e => h1 e.symm
  have c2 : ("/health" == path) = false := by
    rw [beq_eq_false_iff_ne]; exact fun e => h2 e.symm
  simp [dispatchRequest, muxDispatch, httpHandlers, List.find?, c1, c2]

/-- Counterexample for C9 as stated: `ServeMux` does not examine the
method, so a `GET /write` (and any other method on `/write`) is handled
by the middleware-wrapped Admission Handler. -/
theorem route_get_write_hits_ingest_cex :
    dispatchRequest "GET" "/write" = some HandlerKind.loggedIngest ∧
    dispatchRequest "DELETE" "/write" = some HandlerKind.loggedIngest :=
  ⟨rfl, rfl⟩

/-- Witness for the amended C9: with method GET, `/write` and `/health`
dispatch to their handlers and the path `/metrics` is unrouted. -/
theorem route_dispatch_by_path_only_witness :
    dispatchRequest "GET" "/write" = some HandlerKind.loggedIngest ∧
    dispatchRequest "GET" "/health" = some HandlerKind.loggedHealth ∧
    dispatchRequest "GET" "/metrics" = none ∧
    httpHandlers.length = 2 :=
  route_dispatch_by_path_only "GET" "/metrics" (by decide) (by decide)

/-- **C10.** The logging middleware reads the key it logs from the fixed
header name `Service-API-Key` (its log line carries the masked value of
that fixed header, whatever `APIKeyHeaderName` is configured — the
middleware does not receive the listener configuration at all).  Hence
for a request that carries its tenant key only under a configured
non-default header name, the masked key field of the access line is the
empty string and differs from the key the Admission Handler
authenticates, which is read from the configurable header. -/
theorem middleware_reads_fixed_header (mid : String) (req : Request)
    (cfg : HTTPListenerConfig)
    (hmw : req.headerGet "Service-API-Key" = "")
    (hauth : req.headerGet cfg.APIKeyHeaderName ≠ "") :
    revealedIn
      (", api-key: " ++ Mask (req.headerGet "Service-API-Key") 4 ++
        ", http-proto: ")
      (middlewareLogLine mid req) = true ∧
    Mask (req.headerGet "Service-API-Key") 4 = "" ∧
    Mask (req.headerGet "Service-API-Key") 4 ≠
      req.headerGet cfg.APIKeyHeaderName := by
  refine ⟨?_, ?_, ?_⟩
  · apply revealedIn_of_data _ _
      (("Received message-id: " ++ mid ++ ", remote-host: " ++
        splitHostPortHost req.remoteAddr ++ ", uri: " ++
        (if req.method == "POST" then "" else req.requestURI) ++
        ", http-method: " ++ req.method).data)
      ((req.proto ++ ", user-agent: " ++ req.userAgent).data)
    simp [middlewareLogLine, String.data_append]
  · rw [hmw]; rfl
  · rw [hmw]
    exact fun e => hauth e.symm

/-- A configuration with a non-default key header name, and a request
carrying the registered key only under that configured name. -/
def altHeaderCfg : HTTPListenerConfig :=
  { testCfg with APIKeyHeaderName := "X-Tenant-Key" }

def altHeaderReq : Request :=
  { validReq with
    headers := mkHeaders
      [("X-Tenant-Key", "good-key-123"), ("Content-Encoding", "gzip")] }

/-- Witness for C10: under the configured name `X-Tenant-Key`, the
middleware's masked key field is empty and differs from the key the
Admission Handler authenticates. -/
theorem middleware_reads_fixed_header_witness :
    revealedIn
      (", api-key: " ++ Mask (altHeaderReq.headerGet "Service-API-Key") 4 ++
        ", http-proto: ")
      (middlewareLogLine "mid-7" altHeaderReq) = true ∧
    Mask (altHeaderReq.headerGet "Service-API-Key") 4 = "" ∧
    Mask (altHeaderReq.headerGet "Service-API-Key") 4 ≠
      altHeaderReq.headerGet altHeaderCfg.APIKeyHeaderName :=
  middleware_reads_fixed_header "mid-7" altHeaderReq altHeaderCfg
    (by decide) (by decide)

end InfluxRouter
